import Mathlib

/-!
Shallow embedding of the `usage` status-line segment
(`src/core/segments/usage.rs` of CCometixLine).

Numbers: Rust `f64` utilization values are modelled as `ℚ` (exact rational
arithmetic; the operations the code performs on them — `round`, `as u8`
casts, division by 100, comparisons — are order/rounding facts that `ℚ`
mirrors exactly at the granularity the spec talks about).  Rust `as`
casts from a float to `u8` truncate toward zero and saturate to `[0, 255]`;
`u64 as i64` is a wrapping (two's-complement) reinterpretation.

Effects at the boundary of the file are abstracted into explicit inputs:
* RFC3339 parsing (`chrono::DateTime::parse_from_rfc3339` followed by
  conversion to `Utc`) becomes a caller-supplied `String → Option Int`
  giving seconds since the epoch (second granularity, which is the
  granularity at which the code compares instants via `num_seconds`).
* conversion of a parsed timestamp to the local calendar
  (`with_timezone(&Local)`) becomes a caller-supplied
  `String → Option LocalDateTime`.
* file and network I/O (`load_cache`'s file read, `fetch_api_usage`)
  become `Option`-valued inputs of the orchestrator environment.
-/

/-- Truncation of a rational toward zero, the rounding used by Rust `as`
casts from floats to integers (`tdiv` is exactly division with truncation
toward zero). -/
def ratTrunc (q : ℚ) : Int :=
  q.num.tdiv q.den

/-- Rust `f64::round`: round half away from zero. -/
def round_rust (q : ℚ) : Int :=
  if q < 0 then -ratTrunc (-q + 1/2) else ratTrunc (q + 1/2)

/-- Saturation of an integer into the `u8` range, the clamping performed by
a Rust `as u8` cast on an integral float value. -/
def u8_sat (x : Int) : Nat :=
  (max 0 (min 255 x)).toNat

/-- Rust `as u8` cast of a float value: truncate toward zero, saturate to
`[0, 255]`. -/
def rat_as_u8 (q : ℚ) : Nat :=
  u8_sat (ratTrunc q)

/-- Rust `u64 as i64`: two's-complement reinterpretation (wraps for values
at or above `2^63`). -/
def u64_to_i64 (n : Nat) : Int :=
  if n < 2 ^ 63 then (n : Int) else (n : Int) - 2 ^ 64

/-- ASCII lower-casing of one character, as used by
`str::eq_ignore_ascii_case` (bytes outside `A`–`Z` are unchanged). -/
def asciiLowerChar (c : Char) : Char :=
  if 65 ≤ c.toNat ∧ c.toNat ≤ 90 then Char.ofNat (c.toNat + 32) else c

/-- Rust `str::eq_ignore_ascii_case`. -/
def eqIgnoreAsciiCase (a b : String) : Bool :=
  a.data.map asciiLowerChar == b.data.map asciiLowerChar

/-- One window of the usage endpoint's response body (`UsagePeriod`). -/
structure UsagePeriod where
  utilization : ℚ
  resets_at : Option String
deriving DecidableEq

/-- The usage endpoint's response body (`ApiUsageResponse`). -/
structure ApiUsageResponse where
  five_hour : UsagePeriod
  seven_day : UsagePeriod
deriving DecidableEq

/-- The persisted cache record (`ApiUsageCache`).  `legacy_resets_at` is the
serde view of the legacy `resets_at` JSON field (absent fields deserialize
to `none` via `#[serde(default)]`). -/
structure ApiUsageCache where
  five_hour_utilization : ℚ
  seven_day_utilization : ℚ
  five_hour_resets_at : Option String
  seven_day_resets_at : Option String
  legacy_resets_at : Option String
  cached_at : String
deriving DecidableEq

/-- A wall-clock instant in the local calendar, the data
`format_reset_time` reads off a `DateTime<Local>` (proleptic Gregorian
fields; the timezone conversion itself is abstracted). -/
structure LocalDateTime where
  year : Int
  month : Nat
  day : Nat
  hour : Nat
  minute : Nat
deriving DecidableEq

/-- The value a segment hands back to the rendering framework
(`SegmentData`); the `HashMap` of metadata is modelled as an association
list with replace-on-insert semantics. -/
structure SegmentData where
  primary : String
  secondary : String
  metadata : List (String × String)
deriving DecidableEq

/-- `HashMap::insert`: replace any existing binding of the key. -/
def map_insert (m : List (String × String)) (key value : String) :
    List (String × String) :=
  m.filter (fun p => p.1 != key) ++ [(key, value)]

/-- `HashMap::get`: look a key up. -/
def map_get (m : List (String × String)) (key : String) : Option String :=
  (m.find? (fun p => p.1 == key)).map Prod.snd

/-- The configured reset window (`ResetPeriod`), default `Session`. -/
inductive ResetPeriod where
  | Session
  | Weekly
deriving DecidableEq

/-- `ResetPeriod::as_str`. -/
def ResetPeriod.as_str : ResetPeriod → String
  | ResetPeriod.Session => "session"
  | ResetPeriod.Weekly => "weekly"

/-- `TryFrom<&str> for ResetPeriod` (the `Result<Self, ()>` is modelled as
an `Option`). -/
def ResetPeriod.try_from (value : String) : Option ResetPeriod :=
  if eqIgnoreAsciiCase value "session" then some ResetPeriod.Session
  else if eqIgnoreAsciiCase value "weekly" then some ResetPeriod.Weekly
  else none

/-- The configured rendering style of the reset indicator (`ResetFormat`),
default `Time`. -/
inductive ResetFormat where
  | Time
  | Duration
deriving DecidableEq

/-- `ResetFormat::as_str`. -/
def ResetFormat.as_str : ResetFormat → String
  | ResetFormat.Time => "time"
  | ResetFormat.Duration => "duration"

/-- `TryFrom<&str> for ResetFormat`. -/
def ResetFormat.try_from (value : String) : Option ResetFormat :=
  if eqIgnoreAsciiCase value "time" then some ResetFormat.Time
  else if eqIgnoreAsciiCase value "duration" then some ResetFormat.Duration
  else none

/-- Glyph `circle_slice_1`. -/
def circle_slice_1 : String := (Char.ofNat 0xF0A9E).toString

/-- Glyph `circle_slice_2`. -/
def circle_slice_2 : String := (Char.ofNat 0xF0A9F).toString

/-- Glyph `circle_slice_3`. -/
def circle_slice_3 : String := (Char.ofNat 0xF0AA0).toString

/-- Glyph `circle_slice_4`. -/
def circle_slice_4 : String := (Char.ofNat 0xF0AA1).toString

/-- Glyph `circle_slice_5`. -/
def circle_slice_5 : String := (Char.ofNat 0xF0AA2).toString

/-- Glyph `circle_slice_6`. -/
def circle_slice_6 : String := (Char.ofNat 0xF0AA3).toString

/-- Glyph `circle_slice_7`. -/
def circle_slice_7 : String := (Char.ofNat 0xF0AA4).toString

/-- Glyph `circle_slice_8`. -/
def circle_slice_8 : String := (Char.ofNat 0xF0AA5).toString

/-- The eight bucket glyphs in bucket order. -/
def circle_icons : List String :=
  [circle_slice_1, circle_slice_2, circle_slice_3, circle_slice_4,
   circle_slice_5, circle_slice_6, circle_slice_7, circle_slice_8]

/-- `UsageSegment::get_circle_icon`: `(utilization * 100.0) as u8`, then the
range match `0..=12 | 13..=25 | … | _`. -/
def get_circle_icon (utilization : ℚ) : String :=
  let percent := rat_as_u8 (utilization * 100)
  if percent ≤ 12 then circle_slice_1
  else if percent ≤ 25 then circle_slice_2
  else if percent ≤ 37 then circle_slice_3
  else if percent ≤ 50 then circle_slice_4
  else if percent ≤ 62 then circle_slice_5
  else if percent ≤ 75 then circle_slice_6
  else if percent ≤ 87 then circle_slice_7
  else circle_slice_8

/-- The index of the bucket `get_circle_icon` selects (same range tests as
the source's match, numbered 0–7). -/
def bucket_index (utilization : ℚ) : Nat :=
  let percent := rat_as_u8 (utilization * 100)
  if percent ≤ 12 then 0
  else if percent ≤ 25 then 1
  else if percent ≤ 37 then 2
  else if percent ≤ 50 then 3
  else if percent ≤ 62 then 4
  else if percent ≤ 75 then 5
  else if percent ≤ 87 then 6
  else 7

/-- Whether a year is a Gregorian leap year (the calendar chrono uses). -/
def is_leap_year (y : Int) : Bool :=
  (y % 4 == 0 && y % 100 != 0) || y % 400 == 0

/-- Days in a Gregorian month. -/
def days_in_month (y : Int) (m : Nat) : Nat :=
  if m = 2 then (if is_leap_year y then 29 else 28)
  else if m = 4 ∨ m = 6 ∨ m = 9 ∨ m = 11 then 30
  else 31

/-- `local_dt += Duration::hours(1)` on the local calendar fields
(Gregorian roll-over of day/month/year; DST transitions are outside the
model, as is the timezone conversion itself). -/
def add_one_hour (dt : LocalDateTime) : LocalDateTime :=
  if dt.hour + 1 ≤ 23 then { dt with hour := dt.hour + 1 }
  else if dt.day + 1 ≤ days_in_month dt.year dt.month then
    { dt with hour := 0, day := dt.day + 1 }
  else if dt.month + 1 ≤ 12 then
    { dt with hour := 0, day := 1, month := dt.month + 1 }
  else
    { dt with hour := 0, day := 1, month := 1, year := dt.year + 1 }

/-- `UsageSegment::format_reset_time`.  `to_local` abstracts
`parse_from_rfc3339` followed by `with_timezone(&Local)`; it returns `none`
exactly when parsing fails. -/
def format_reset_time (to_local : String → Option LocalDateTime)
    (reset_time_str : Option String) : String :=
  match reset_time_str with
  | some time_str =>
    match to_local time_str with
    | some dt =>
      let local_dt := if dt.minute > 45 then add_one_hour dt else dt
      toString local_dt.month ++ "-" ++ toString local_dt.day ++ "-" ++
        toString local_dt.hour
    | none => "?"
  | none => "?"

/-- `UsageSegment::format_reset_duration`.  `parse` abstracts
`parse_from_rfc3339` followed by `with_timezone(&Utc)` (seconds since the
epoch); `now` is `Utc::now()` at the same granularity.  Integer division
and remainder on `i64` truncate toward zero, hence `tdiv`/`tmod`. -/
def format_reset_duration (parse : String → Option Int) (now : Int)
    (reset_time_str : Option String) : String :=
  match reset_time_str with
  | some time_str =>
    match parse time_str with
    | some reset_utc =>
      let remaining := reset_utc - now
      if remaining < 60 then "now"
      else
        let total_minutes := remaining.tdiv 60
        let days := total_minutes.tdiv (24 * 60)
        let hours := (total_minutes.tmod (24 * 60)).tdiv 60
        let minutes := total_minutes.tmod 60
        if days > 0 then toString days ++ "d " ++ toString hours ++ "h"
        else if hours > 0 then
          toString hours ++ "h " ++ toString minutes ++ "m"
        else toString minutes ++ "m"
    | none => "?"
  | none => "?"

/-- `UsageSegment::load_cache`, over the deserialized content of the cache
file (`none` when the file is missing, unreadable or not valid JSON for the
schema): the legacy `resets_at` backfill of lines 180–187. -/
def load_cache (file_content : Option ApiUsageCache) : Option ApiUsageCache :=
  match file_content with
  | none => none
  | some cache =>
    match cache.legacy_resets_at with
    | some legacy =>
      let cache1 :=
        if cache.five_hour_resets_at.isNone then
          { cache with five_hour_resets_at := some legacy }
        else cache
      let cache2 :=
        if cache1.seven_day_resets_at.isNone then
          { cache1 with seven_day_resets_at := some legacy }
        else cache1
      some cache2
    | none => some cache

/-- `UsageSegment::is_cache_valid`: parse `cached_at`, compare the elapsed
whole seconds against `cache_duration as i64`. -/
def is_cache_valid (parse : String → Option Int) (now : Int)
    (cache : ApiUsageCache) (cache_duration : Nat) : Bool :=
  match parse cache.cached_at with
  | some cached_at => decide (now - cached_at < u64_to_i64 cache_duration)
  | none => false

/-- The reset-timestamp selection of `collect` (lines 383–390):
`five_hour_resets_at.or(seven_day_resets_at)` under `Session`, the mirror
image under `Weekly`. -/
def select_resets_at (period : ResetPeriod)
    (five_hour_resets_at seven_day_resets_at : Option String) :
    Option String :=
  match period with
  | ResetPeriod.Session => five_hour_resets_at.or seven_day_resets_at
  | ResetPeriod.Weekly => seven_day_resets_at.or five_hour_resets_at

/-- The default of the `api_base_url` option. -/
def default_api_base_url : String := "https://api.anthropic.com"

/-- The separator prefix of the secondary string: the source literal holds
the two characters U+00C2 U+00B7 and a space. -/
def secondary_sep : String :=
  String.mk [Char.ofNat 0xC2, Char.ofNat 0xB7, ' ']

/-- Rust `f64::to_string`, used only for the two utilization metadata
values; no claim depends on its exact digits, so the rendering is
abstracted by the `ℚ` repr. -/
def rat_display (q : ℚ) : String := toString q

/-- The environment of one `collect` invocation: every effectful
collaborator of the orchestrator, made explicit.  `fetch_api_usage` is the
outcome of `UsageSegment::fetch_api_usage` as a function of the base URL,
token and timeout it is called with; `cache_file` is the deserialized
content of the cache file; `now_str` is `Utc::now().to_rfc3339()`. -/
structure CollectEnv where
  token : Option String
  config_ok : Bool
  api_base_url_opt : Option String
  cache_duration_opt : Option Nat
  timeout_opt : Option Nat
  reset_period_raw : Option String
  reset_format_raw : Option String
  cache_file : Option ApiUsageCache
  fetch_api_usage : String → String → Nat → Option ApiUsageResponse
  parse_rfc3339 : String → Option Int
  to_local : String → Option LocalDateTime
  now : Int
  now_str : String

/-- What one `collect` invocation produces: the optional `SegmentData`,
whether `fetch_api_usage` was called, and the record handed to
`save_cache` when one was. -/
structure CollectResult where
  output : Option SegmentData
  fetch_attempted : Bool
  saved_cache : Option ApiUsageCache
deriving DecidableEq

/-- Lines 383–442 of `collect`: rendering of the chosen snapshot.  The
`reset_period`/`reset_format` parsing is the source's
`raw.as_deref().and_then(try_from).unwrap_or_default()` (the source runs it
before the snapshot selection; both are pure, so the order is
immaterial). -/
def collect_render (env : CollectEnv) (five_hour_util seven_day_util : ℚ)
    (five_hour_resets_at seven_day_resets_at : Option String) :
    SegmentData :=
  let reset_period :=
    (env.reset_period_raw.bind (fun v => ResetPeriod.try_from v)).getD
      ResetPeriod.Session
  let reset_format :=
    (env.reset_format_raw.bind (fun v => ResetFormat.try_from v)).getD
      ResetFormat.Time
  let resets_at :=
    select_resets_at reset_period five_hour_resets_at seven_day_resets_at
  let dynamic_icon := get_circle_icon (seven_day_util / 100)
  let five_hour_percent := u8_sat (round_rust five_hour_util)
  let primary := toString five_hour_percent ++ "%"
  let reset_str :=
    match reset_format with
    | ResetFormat.Duration =>
      format_reset_duration env.parse_rfc3339 env.now resets_at
    | ResetFormat.Time => format_reset_time env.to_local resets_at
  let secondary := secondary_sep ++ reset_str
  let metadata := map_insert [] "dynamic_icon" dynamic_icon
  let metadata :=
    map_insert metadata "five_hour_utilization" (rat_display five_hour_util)
  let metadata :=
    map_insert metadata "seven_day_utilization" (rat_display seven_day_util)
  let metadata := map_insert metadata "reset_period" reset_period.as_str
  let metadata := map_insert metadata "reset_format" reset_format.as_str
  let metadata :=
    match env.reset_period_raw with
    | some value =>
      if (ResetPeriod.try_from value).isNone then
        map_insert metadata "invalid_reset_period" value
      else metadata
    | none => metadata
  let metadata :=
    match env.reset_format_raw with
    | some value =>
      if (ResetFormat.try_from value).isNone then
        map_insert metadata "invalid_reset_format" value
      else metadata
    | none => metadata
  ⟨primary, secondary, metadata⟩

/-- `UsageSegment::collect` (`impl Segment`): token and config lookup,
cache load and validity check, the cached/fetched/stale/none data-source
fallback, cache write-back, and the final render. -/
def collect (env : CollectEnv) : CollectResult :=
  match env.token with
  | none => ⟨none, false, none⟩
  | some token =>
    match env.config_ok with
    | false => ⟨none, false, none⟩
    | true =>
      let api_base_url := env.api_base_url_opt.getD default_api_base_url
      let cache_duration := env.cache_duration_opt.getD 300
      let timeout := env.timeout_opt.getD 2
      let cached_data := load_cache env.cache_file
      let use_cached :=
        (cached_data.map (fun cache =>
          is_cache_valid env.parse_rfc3339 env.now cache
            cache_duration)).getD false
      if use_cached then
        match cached_data with
        | some cache =>
          ⟨some (collect_render env cache.five_hour_utilization
              cache.seven_day_utilization cache.five_hour_resets_at
              cache.seven_day_resets_at),
            false, none⟩
        | none => ⟨none, false, none⟩
      else
        match env.fetch_api_usage api_base_url token timeout with
        | some response =>
          let cache : ApiUsageCache :=
            { five_hour_utilization := response.five_hour.utilization
              seven_day_utilization := response.seven_day.utilization
              five_hour_resets_at := response.five_hour.resets_at
              seven_day_resets_at := response.seven_day.resets_at
              legacy_resets_at := none
              cached_at := env.now_str }
          ⟨some (collect_render env response.five_hour.utilization
              response.seven_day.utilization response.five_hour.resets_at
              response.seven_day.resets_at),
            true, some cache⟩
        | none =>
          match cached_data with
          | some cache =>
            ⟨some (collect_render env cache.five_hour_utilization
                cache.seven_day_utilization cache.five_hour_resets_at
                cache.seven_day_resets_at),
              true, none⟩
          | none => ⟨none, true, none⟩

/-! Helper lemmas about the numeric casts. -/

theorem ratTrunc_eq_floor (q : ℚ) (h : 0 ≤ q) : ratTrunc q = ⌊q⌋ := by
  unfold ratTrunc
  rw [Int.tdiv_eq_ediv (Rat.num_nonneg.mpr h) (Int.ofNat_nonneg q.den),
    Rat.floor_def]

theorem ratTrunc_eq_neg_floor (q : ℚ) (h : q < 0) : ratTrunc q = -⌊-q⌋ := by
  have hnum : q.num ≤ 0 := le_of_lt (Rat.num_neg.mpr h)
  have h1 : ratTrunc q = -((-q).num.tdiv (-q).den) := by
    simp [ratTrunc, Rat.neg_num, Rat.neg_den, Int.neg_tdiv]
  rw [h1, Int.tdiv_eq_ediv (by simpa [Rat.neg_num] using hnum)
    (Int.ofNat_nonneg _), Rat.floor_def]

theorem ratTrunc_mono {a b : ℚ} (h : a ≤ b) : ratTrunc a ≤ ratTrunc b := by
  rcases lt_or_le a 0 with ha | ha
  · rcases lt_or_le b 0 with hb | hb
    · rw [ratTrunc_eq_neg_floor a ha, ratTrunc_eq_neg_floor b hb]
      have hfl : ⌊-b⌋ ≤ ⌊-a⌋ := Int.floor_le_floor (by linarith)
      omega
    · rw [ratTrunc_eq_neg_floor a ha, ratTrunc_eq_floor b hb]
      have h1 : 0 ≤ ⌊-a⌋ := Int.floor_nonneg.mpr (by linarith)
      have h2 : 0 ≤ ⌊b⌋ := Int.floor_nonneg.mpr hb
      omega
  · rw [ratTrunc_eq_floor a ha, ratTrunc_eq_floor b (le_trans ha h)]
    exact Int.floor_le_floor h

theorem u8_sat_mono {x y : Int} (h : x ≤ y) : u8_sat x ≤ u8_sat y := by
  unfold u8_sat
  omega

theorem rat_as_u8_mono {a b : ℚ} (h : a ≤ b) : rat_as_u8 a ≤ rat_as_u8 b :=
  u8_sat_mono (ratTrunc_mono h)

theorem rat_as_u8_le_iff (q : ℚ) (k : Nat) (hq : 0 ≤ q) (hk : k < 255) :
    rat_as_u8 q ≤ k ↔ q < (k : ℚ) + 1 := by
  unfold rat_as_u8 u8_sat
  rw [ratTrunc_eq_floor q hq]
  have h0 : 0 ≤ ⌊q⌋ := Int.floor_nonneg.mpr hq
  constructor
  · intro h
    by_contra hlt
    push_neg at hlt
    have hle : (k : Int) + 1 ≤ ⌊q⌋ := Int.le_floor.mpr (by push_cast; linarith)
    omega
  · intro h
    have hlt : ⌊q⌋ < (k : Int) + 1 := Int.floor_lt.mpr (by push_cast; linarith)
    omega

theorem le_rat_as_u8_iff (q : ℚ) (k : Nat) (hq : 0 ≤ q) (hk : k ≤ 255) :
    k ≤ rat_as_u8 q ↔ (k : ℚ) ≤ q := by
  unfold rat_as_u8 u8_sat
  rw [ratTrunc_eq_floor q hq]
  have h0 : 0 ≤ ⌊q⌋ := Int.floor_nonneg.mpr hq
  constructor
  · intro h
    have hk2 : (k : Int) ≤ ⌊q⌋ := by omega
    have := Int.le_floor.mp hk2
    push_cast at this ⊢
    linarith
  · intro h
    have hk2 : (k : Int) ≤ ⌊q⌋ := Int.le_floor.mpr (by push_cast; linarith)
    omega


/-- The bucket selection of `get_circle_icon` expressed on the computed
percent value (same range tests as the source's match, numbered 0–7). -/
def percent_bucket (percent : Nat) : Nat :=
  if percent ≤ 12 then 0
  else if percent ≤ 25 then 1
  else if percent ≤ 37 then 2
  else if percent ≤ 50 then 3
  else if percent ≤ 62 then 4
  else if percent ≤ 75 then 5
  else if percent ≤ 87 then 6
  else 7

theorem bucket_index_eq_percent_bucket (q : ℚ) :
    bucket_index q = percent_bucket (rat_as_u8 (q * 100)) := rfl

theorem get_circle_icon_eq_bucket (q : ℚ) :
    get_circle_icon q = circle_icons.getD (bucket_index q) "" := by
  have h : ∀ p : Nat,
      (if p ≤ 12 then circle_slice_1
       else if p ≤ 25 then circle_slice_2
       else if p ≤ 37 then circle_slice_3
       else if p ≤ 50 then circle_slice_4
       else if p ≤ 62 then circle_slice_5
       else if p ≤ 75 then circle_slice_6
       else if p ≤ 87 then circle_slice_7
       else circle_slice_8) = circle_icons.getD (percent_bucket p) "" := by
    intro p
    unfold percent_bucket circle_icons
    split_ifs <;> rfl
  exact h (rat_as_u8 (q * 100))

theorem percent_bucket_lt_8 (p : Nat) : percent_bucket p < 8 := by
  unfold percent_bucket
  split_ifs <;> omega

theorem percent_bucket_spec (p : Nat) :
    (percent_bucket p = 0 ∧ p ≤ 12) ∨
    (percent_bucket p = 1 ∧ 13 ≤ p ∧ p ≤ 25) ∨
    (percent_bucket p = 2 ∧ 26 ≤ p ∧ p ≤ 37) ∨
    (percent_bucket p = 3 ∧ 38 ≤ p ∧ p ≤ 50) ∨
    (percent_bucket p = 4 ∧ 51 ≤ p ∧ p ≤ 62) ∨
    (percent_bucket p = 5 ∧ 63 ≤ p ∧ p ≤ 75) ∨
    (percent_bucket p = 6 ∧ 76 ≤ p ∧ p ≤ 87) ∨
    (percent_bucket p = 7 ∧ 88 ≤ p) := by
  unfold percent_bucket
  split_ifs with h1 h2 h3 h4 h5 h6 h7
  · exact Or.inl ⟨rfl, by omega⟩
  · exact Or.inr (Or.inl ⟨rfl, by omega, by omega⟩)
  · exact Or.inr (Or.inr (Or.inl ⟨rfl, by omega, by omega⟩))
  · exact Or.inr (Or.inr (Or.inr (Or.inl ⟨rfl, by omega, by omega⟩)))
  · exact Or.inr (Or.inr (Or.inr (Or.inr (Or.inl ⟨rfl, by omega, by omega⟩))))
  · exact Or.inr (Or.inr (Or.inr (Or.inr (Or.inr (Or.inl
      ⟨rfl, by omega, by omega⟩)))))
  · exact Or.inr (Or.inr (Or.inr (Or.inr (Or.inr (Or.inr (Or.inl
      ⟨rfl, by omega, by omega⟩))))))
  · exact Or.inr (Or.inr (Or.inr (Or.inr (Or.inr (Or.inr (Or.inr
      ⟨rfl, by omega⟩))))))

theorem percent_bucket_mono {p q : Nat} (h : p ≤ q) :
    percent_bucket p ≤ percent_bucket q := by
  rcases percent_bucket_spec p with ⟨e, r⟩ | ⟨e, r, r2⟩ | ⟨e, r, r2⟩ |
    ⟨e, r, r2⟩ | ⟨e, r, r2⟩ | ⟨e, r, r2⟩ | ⟨e, r, r2⟩ | ⟨e, r⟩ <;>
  rcases percent_bucket_spec q with ⟨e2, s⟩ | ⟨e2, s, s2⟩ | ⟨e2, s, s2⟩ |
    ⟨e2, s, s2⟩ | ⟨e2, s, s2⟩ | ⟨e2, s, s2⟩ | ⟨e2, s, s2⟩ | ⟨e2, s⟩ <;>
  omega

theorem percent_bucket_top {p : Nat} (h : 88 ≤ p) : percent_bucket p = 7 := by
  unfold percent_bucket
  split_ifs <;> omega

theorem percent_bucket_eq0 (p : Nat) : percent_bucket p = 0 ↔ p ≤ 12 := by
  unfold percent_bucket
  split_ifs <;> constructor <;> intro h2 <;>
    first
    | omega
    | exact absurd h2 (by decide)

theorem percent_bucket_eq1 (p : Nat) :
    percent_bucket p = 1 ↔ 13 ≤ p ∧ p ≤ 25 := by
  unfold percent_bucket
  split_ifs <;> constructor <;> intro h2 <;>
    first
    | omega
    | exact absurd h2 (by decide)

theorem percent_bucket_eq2 (p : Nat) :
    percent_bucket p = 2 ↔ 26 ≤ p ∧ p ≤ 37 := by
  unfold percent_bucket
  split_ifs <;> constructor <;> intro h2 <;>
    first
    | omega
    | exact absurd h2 (by decide)

theorem percent_bucket_eq3 (p : Nat) :
    percent_bucket p = 3 ↔ 38 ≤ p ∧ p ≤ 50 := by
  unfold percent_bucket
  split_ifs <;> constructor <;> intro h2 <;>
    first
    | omega
    | exact absurd h2 (by decide)

theorem percent_bucket_eq4 (p : Nat) :
    percent_bucket p = 4 ↔ 51 ≤ p ∧ p ≤ 62 := by
  unfold percent_bucket
  split_ifs <;> constructor <;> intro h2 <;>
    first
    | omega
    | exact absurd h2 (by decide)

theorem percent_bucket_eq5 (p : Nat) :
    percent_bucket p = 5 ↔ 63 ≤ p ∧ p ≤ 75 := by
  unfold percent_bucket
  split_ifs <;> constructor <;> intro h2 <;>
    first
    | omega
    | exact absurd h2 (by decide)

theorem percent_bucket_eq6 (p : Nat) :
    percent_bucket p = 6 ↔ 76 ≤ p ∧ p ≤ 87 := by
  unfold percent_bucket
  split_ifs <;> constructor <;> intro h2 <;>
    first
    | omega
    | exact absurd h2 (by decide)

theorem percent_bucket_eq7 (p : Nat) : percent_bucket p = 7 ↔ 88 ≤ p := by
  unfold percent_bucket
  split_ifs <;> constructor <;> intro h2 <;>
    first
    | omega
    | exact absurd h2 (by decide)

/-- C5: the icon-bucketing function is total — every utilization fraction,
including values above 1, maps to one of the 8 distinct glyphs (values
above 1 to the top bucket) — it is non-decreasing in bucket index over
`[0,1]`, and for nonnegative fractions the bucket is exactly determined by
the stated percentage ranges 0–12, 13–25, 26–37, 38–50, 51–62, 63–75,
76–87 and 88-and-above. -/
theorem claim_C5 :
    (∀ q : ℚ, get_circle_icon q = circle_icons.getD (bucket_index q) "" ∧
      bucket_index q < 8) ∧
    circle_icons.Nodup ∧
    (∀ a b : ℚ, 0 ≤ a → a ≤ b → b ≤ 1 → bucket_index a ≤ bucket_index b) ∧
    (∀ q : ℚ, 1 < q →
      bucket_index q = 7 ∧ get_circle_icon q = circle_slice_8) ∧
    (∀ q : ℚ, 0 ≤ q →
      (bucket_index q = 0 ↔ q * 100 < 13) ∧
      (bucket_index q = 1 ↔ 13 ≤ q * 100 ∧ q * 100 < 26) ∧
      (bucket_index q = 2 ↔ 26 ≤ q * 100 ∧ q * 100 < 38) ∧
      (bucket_index q = 3 ↔ 38 ≤ q * 100 ∧ q * 100 < 51) ∧
      (bucket_index q = 4 ↔ 51 ≤ q * 100 ∧ q * 100 < 63) ∧
      (bucket_index q = 5 ↔ 63 ≤ q * 100 ∧ q * 100 < 76) ∧
      (bucket_index q = 6 ↔ 76 ≤ q * 100 ∧ q * 100 < 88) ∧
      (bucket_index q = 7 ↔ 88 ≤ q * 100)) := by
  refine ⟨fun q => ⟨get_circle_icon_eq_bucket q, ?_⟩, by decide, ?_, ?_, ?_⟩
  · rw [bucket_index_eq_percent_bucket]
    exact percent_bucket_lt_8 _
  · intro a b ha hab hb1
    rw [bucket_index_eq_percent_bucket, bucket_index_eq_percent_bucket]
    exact percent_bucket_mono (rat_as_u8_mono (by nlinarith))
  · intro q hq
    have h88 : 88 ≤ rat_as_u8 (q * 100) := by
      rw [le_rat_as_u8_iff (q * 100) 88 (by nlinarith) (by norm_num)]
      push_cast
      nlinarith
    have hb7 : bucket_index q = 7 := by
      rw [bucket_index_eq_percent_bucket]
      exact percent_bucket_top h88
    refine ⟨hb7, ?_⟩
    rw [get_circle_icon_eq_bucket q, hb7]
    rfl
  · intro q hq
    have hq100 : (0 : ℚ) ≤ q * 100 := by nlinarith
    have c12 := rat_as_u8_le_iff (q * 100) 12 hq100 (by norm_num)
    have c13 := le_rat_as_u8_iff (q * 100) 13 hq100 (by norm_num)
    have c25 := rat_as_u8_le_iff (q * 100) 25 hq100 (by norm_num)
    have c26 := le_rat_as_u8_iff (q * 100) 26 hq100 (by norm_num)
    have c37 := rat_as_u8_le_iff (q * 100) 37 hq100 (by norm_num)
    have c38 := le_rat_as_u8_iff (q * 100) 38 hq100 (by norm_num)
    have c50 := rat_as_u8_le_iff (q * 100) 50 hq100 (by norm_num)
    have c51 := le_rat_as_u8_iff (q * 100) 51 hq100 (by norm_num)
    have c62 := rat_as_u8_le_iff (q * 100) 62 hq100 (by norm_num)
    have c63 := le_rat_as_u8_iff (q * 100) 63 hq100 (by norm_num)
    have c75 := rat_as_u8_le_iff (q * 100) 75 hq100 (by norm_num)
    have c76 := le_rat_as_u8_iff (q * 100) 76 hq100 (by norm_num)
    have c87 := rat_as_u8_le_iff (q * 100) 87 hq100 (by norm_num)
    have c88 := le_rat_as_u8_iff (q * 100) 88 hq100 (by norm_num)
    norm_num at c12 c13 c25 c26 c37 c38 c50 c51 c62 c63 c75 c76 c87 c88
    rw [bucket_index_eq_percent_bucket]
    exact ⟨(percent_bucket_eq0 _).trans c12,
      (percent_bucket_eq1 _).trans (and_congr c13 c25),
      (percent_bucket_eq2 _).trans (and_congr c26 c37),
      (percent_bucket_eq3 _).trans (and_congr c38 c50),
      (percent_bucket_eq4 _).trans (and_congr c51 c62),
      (percent_bucket_eq5 _).trans (and_congr c63 c75),
      (percent_bucket_eq6 _).trans (and_congr c76 c87),
      (percent_bucket_eq7 _).trans c88⟩

/-- C5 witness: concrete instances of the hypotheses of `claim_C5`. -/
theorem claim_C5_witness :
    bucket_index (mkRat 1 4) ≤ bucket_index (mkRat 1 2) ∧
    bucket_index 2 = 7 ∧
    (bucket_index (mkRat 1 2) = 3 ↔
      38 ≤ (mkRat 1 2 : ℚ) * 100 ∧ (mkRat 1 2 : ℚ) * 100 < 51) :=
  ⟨claim_C5.2.2.1 (mkRat 1 4) (mkRat 1 2) (by norm_num) (by norm_num)
    (by norm_num),
   (claim_C5.2.2.2.1 2 (by norm_num)).1,
   (claim_C5.2.2.2.2 (mkRat 1 2) (by norm_num)).2.2.2.1⟩

/-- A concrete environment for instantiating the theorems: token present,
config loaded, every option absent, no cache file, failing fetch. -/
def test_env : CollectEnv where
  token := some "token"
  config_ok := true
  api_base_url_opt := none
  cache_duration_opt := none
  timeout_opt := none
  reset_period_raw := none
  reset_format_raw := none
  cache_file := none
  fetch_api_usage := fun _ _ _ => none
  parse_rfc3339 := fun _ => none
  to_local := fun _ => none
  now := 0
  now_str := "1970-01-01T00:00:00+00:00"

theorem collect_render_primary (env : CollectEnv)
    (five_hour_util seven_day_util : ℚ) (a b : Option String) :
    (collect_render env five_hour_util seven_day_util a b).primary =
      toString (u8_sat (round_rust five_hour_util)) ++ "%" := rfl

theorem round_rust_nonneg (q : ℚ) (h : 0 ≤ q) :
    round_rust q = ⌊q + 1/2⌋ := by
  rw [round_rust, if_neg (not_lt.mpr h), ratTrunc_eq_floor _ (by linarith)]

/-- C2 as stated is false: the code rounds the five-hour utilization and
then casts it with `as u8`, which saturates at 255; a server-reported
utilization of 300 renders as `"255%"`, not as the rounded percentage
`"300%"`. -/
theorem claim_C2_counterexample :
    (collect_render test_env 300 0 none none).primary = "255%" ∧
    (collect_render test_env 300 0 none none).primary ≠
      toString (round_rust (300 : ℚ)) ++ "%" := by
  have h300 : round_rust (300 : ℚ) = 300 := by
    rw [round_rust_nonneg _ (by norm_num)]
    norm_num
  rw [collect_render_primary, h300]
  constructor
  · rfl
  · decide

/-- C2 (amended): the primary output string is the five-hour utilization
rounded to the nearest integer (half away from zero) and saturated into
the `u8` range `[0, 255]`, followed by `"%"`; for reported values in
`[0, 255]` this is exactly the rounded percentage, values above 255
saturate to `"255%"`, and negative values render `"0%"`. -/
theorem claim_C2 (env : CollectEnv) (five_hour_util seven_day_util : ℚ)
    (a b : Option String) :
    (collect_render env five_hour_util seven_day_util a b).primary =
      toString (u8_sat (round_rust five_hour_util)) ++ "%" ∧
    (0 ≤ five_hour_util → five_hour_util ≤ 255 →
      (collect_render env five_hour_util seven_day_util a b).primary =
        toString (round_rust five_hour_util).toNat ++ "%") ∧
    (255 < five_hour_util →
      (collect_render env five_hour_util seven_day_util a b).primary =
        "255%") ∧
    (five_hour_util < 0 →
      (collect_render env five_hour_util seven_day_util a b).primary =
        "0%") := by
  refine ⟨collect_render_primary env five_hour_util seven_day_util a b,
    ?_, ?_, ?_⟩
  · intro h0 h255
    rw [collect_render_primary]
    have hr : round_rust five_hour_util = ⌊five_hour_util + 1/2⌋ :=
      round_rust_nonneg _ h0
    have hlow : 0 ≤ ⌊five_hour_util + 1/2⌋ :=
      Int.floor_nonneg.mpr (by linarith)
    have hhigh : ⌊five_hour_util + 1/2⌋ < 256 :=
      Int.floor_lt.mpr (by push_cast; linarith)
    have hs : u8_sat (round_rust five_hour_util) =
        (round_rust five_hour_util).toNat := by
      rw [hr]
      unfold u8_sat
      omega
    rw [hs]
  · intro h
    rw [collect_render_primary]
    have hr : round_rust five_hour_util = ⌊five_hour_util + 1/2⌋ :=
      round_rust_nonneg _ (by linarith)
    have h255 : 255 ≤ ⌊five_hour_util + 1/2⌋ :=
      Int.le_floor.mpr (by push_cast; linarith)
    have hs : u8_sat (round_rust five_hour_util) = 255 := by
      rw [hr]
      unfold u8_sat
      omega
    rw [hs]
    rfl
  · intro h
    rw [collect_render_primary]
    have hneg : round_rust five_hour_util =
        -ratTrunc (-five_hour_util + 1/2) := by
      rw [round_rust, if_pos h]
    have harg : (0 : ℚ) ≤ -five_hour_util + 1/2 := by linarith
    have hfl : ratTrunc (-five_hour_util + 1/2) =
        ⌊-five_hour_util + 1/2⌋ := ratTrunc_eq_floor _ harg
    have h0 : 0 ≤ ⌊-five_hour_util + 1/2⌋ := Int.floor_nonneg.mpr harg
    have hs : u8_sat (round_rust five_hour_util) = 0 := by
      rw [hneg, hfl]
      unfold u8_sat
      omega
    rw [hs]
    rfl

/-- C2 witness: concrete instances of the hypotheses of `claim_C2`. -/
theorem claim_C2_witness :
    (collect_render test_env 42 10 none none).primary =
      toString (round_rust (42 : ℚ)).toNat ++ "%" ∧
    (collect_render test_env 300 10 none none).primary = "255%" ∧
    (collect_render test_env (-3) 10 none none).primary = "0%" :=
  ⟨(claim_C2 test_env 42 10 none none).2.1 (by norm_num) (by norm_num),
   (claim_C2 test_env 300 10 none none).2.2.1 (by norm_num),
   (claim_C2 test_env (-3) 10 none none).2.2.2 (by norm_num)⟩

/-- C3 as stated is false at the top of the `u64` range: at a configured
max age of `2^63` seconds the `cache_duration as i64` cast wraps to a
negative bound, so a record of age 0 is reported invalid although
`now - cached_at < max_age` holds. -/
theorem claim_C3_counterexample :
    ¬ (is_cache_valid (fun _ => some 0) 0
        ⟨0, 0, none, none, none, "epoch"⟩ (2 ^ 63) = true ↔
       (0 : Int) - 0 < ((2 ^ 63 : Nat) : Int)) := by decide

/-- C3 (amended): for every configured max age below `2^63` (the `i64`
range — larger values wrap in the `u64 as i64` cast), `is_cache_valid`
returns false when `cached_at` does not parse, and otherwise returns true
exactly when `now - cached_at` is strictly below the max age; a record
aged exactly the max age is invalid, one aged max age minus one second is
valid. -/
theorem claim_C3 (parse : String → Option Int) (now : Int)
    (cache : ApiUsageCache) (max_age : Nat) (hrange : max_age < 2 ^ 63) :
    (parse cache.cached_at = none →
      is_cache_valid parse now cache max_age = false) ∧
    (∀ t, parse cache.cached_at = some t →
      ((is_cache_valid parse now cache max_age = true ↔
          now - t < (max_age : Int)) ∧
       (now - t = (max_age : Int) →
          is_cache_valid parse now cache max_age = false) ∧
       (now - t = (max_age : Int) - 1 →
          is_cache_valid parse now cache max_age = true))) := by
  have hcast : u64_to_i64 max_age = (max_age : Int) := by
    unfold u64_to_i64
    rw [if_pos hrange]
  constructor
  · intro h
    unfold is_cache_valid
    rw [h]
  · intro t ht
    unfold is_cache_valid
    rw [ht, hcast]
    refine ⟨by simp, ?_, ?_⟩
    · intro he
      simp only [decide_eq_false_iff_not, not_lt]
      omega
    · intro he
      simp only [decide_eq_true_eq]
      omega

/-- C3 witness: a concrete instance of the hypotheses of `claim_C3`. -/
theorem claim_C3_witness :
    is_cache_valid (fun _ => some 0) 5
      ⟨0, 0, none, none, none, "epoch"⟩ 300 = true ↔
    (5 : Int) - 0 < ((300 : Nat) : Int) :=
  ((claim_C3 (fun _ => some 0) 5 ⟨0, 0, none, none, none, "epoch"⟩ 300
    (by norm_num)).2 0 rfl).1

/-- C4: a cache file carrying only the legacy `resets_at` field loads with
both typed reset fields populated from it, and a typed reset field that is
present is never overwritten by the legacy value. -/
theorem claim_C4 :
    (∀ (u1 u2 : ℚ) (v ca : String),
      load_cache (some ⟨u1, u2, none, none, some v, ca⟩) =
        some ⟨u1, u2, some v, some v, some v, ca⟩) ∧
    (∀ cache cache2, load_cache (some cache) = some cache2 →
      (∀ x, cache.five_hour_resets_at = some x →
        cache2.five_hour_resets_at = some x) ∧
      (∀ x, cache.seven_day_resets_at = some x →
        cache2.seven_day_resets_at = some x)) := by
  constructor
  · intro u1 u2 v ca
    rfl
  · intro cache cache2 h
    simp only [load_cache] at h
    rcases hleg : cache.legacy_resets_at with _ | legacy
    · rw [hleg] at h
      replace h := Option.some.inj h
      subst h
      exact ⟨fun x hx => hx, fun x hx => hx⟩
    · rw [hleg] at h
      constructor
      · intro x hx
        rcases h7 : cache.seven_day_resets_at with _ | y <;>
          simp only [hx, h7, Option.isNone_some, Option.isNone_none,
            Bool.false_eq_true, if_false, if_true, Option.some.injEq] at h <;>
          rw [← h] <;>
          simp [hx]
      · intro x hx
        rcases h5 : cache.five_hour_resets_at with _ | y <;>
          simp only [hx, h5, Option.isNone_some, Option.isNone_none,
            Bool.false_eq_true, if_false, if_true, Option.some.injEq] at h <;>
          rw [← h] <;>
          simp [hx]

/-- C4 witness: concrete instances of the hypotheses of `claim_C4`. -/
theorem claim_C4_witness :
    load_cache (some ⟨1, 2, none, none, some "r", "t"⟩) =
      some ⟨1, 2, some "r", some "r", some "r", "t"⟩ ∧
    (⟨1, 2, some "a", some "r", some "r", "t"⟩ :
        ApiUsageCache).five_hour_resets_at = some "a" :=
  ⟨claim_C4.1 1 2 "r" "t",
   (claim_C4.2 ⟨1, 2, some "a", none, some "r", "t"⟩
     ⟨1, 2, some "a", some "r", some "r", "t"⟩ (by rfl)).1 "a" rfl⟩

/-- C9: the reset timestamp chosen for rendering is the five-hour one
under `Session` and the seven-day one under `Weekly`; when the preferred
window's timestamp is absent the other window's is used; only when both
are absent is no timestamp selected. -/
theorem claim_C9 :
    (∀ (a : String) (x : Option String),
      select_resets_at ResetPeriod.Session (some a) x = some a) ∧
    (∀ b : String,
      select_resets_at ResetPeriod.Session none (some b) = some b) ∧
    (∀ (b : String) (x : Option String),
      select_resets_at ResetPeriod.Weekly x (some b) = some b) ∧
    (∀ a : String,
      select_resets_at ResetPeriod.Weekly (some a) none = some a) ∧
    (∀ p : ResetPeriod, select_resets_at p none none = none) := by
  refine ⟨fun a x => rfl, fun b => rfl, fun b x => rfl, fun a => rfl,
    fun p => ?_⟩
  cases p <;> rfl

/-- Evaluation of `format_reset_duration` on a parsed timestamp, expressed
over whole seconds remaining. -/
theorem format_reset_duration_eq (parse : String → Option Int) (now : Int)
    (s : String) (t : Int) (ht : parse s = some t) :
    format_reset_duration parse now (some s) =
      (if t - now < 60 then "now"
       else if 86400 ≤ t - now then
         toString ((t - now) / 86400) ++ "d " ++
           toString ((t - now) % 86400 / 3600) ++ "h"
       else if 3600 ≤ t - now then
         toString ((t - now) / 3600) ++ "h " ++
           toString ((t - now) % 3600 / 60) ++ "m"
       else toString ((t - now) / 60) ++ "m") := by
  simp only [format_reset_duration, ht]
  by_cases h60 : t - now < 60
  · rw [if_pos h60, if_pos h60]
  · rw [if_neg h60, if_neg h60]
    push_neg at h60
    have e1 : (t - now).tdiv 60 = (t - now) / 60 :=
      Int.tdiv_eq_ediv (by omega) (by omega)
    have htm : 0 ≤ (t - now) / 60 := Int.ediv_nonneg (by omega) (by omega)
    have e2 : ((t - now) / 60).tdiv (24 * 60) = (t - now) / 60 / 1440 :=
      Int.tdiv_eq_ediv htm (by omega)
    have e3 : ((t - now) / 60).tmod (24 * 60) = (t - now) / 60 % 1440 :=
      Int.tmod_eq_emod htm (by omega)
    have e4 : ((t - now) / 60 % 1440).tdiv 60 = (t - now) / 60 % 1440 / 60 :=
      Int.tdiv_eq_ediv (Int.emod_nonneg _ (by omega)) (by omega)
    have e5 : ((t - now) / 60).tmod 60 = (t - now) / 60 % 60 :=
      Int.tmod_eq_emod htm (by omega)
    rw [e1, e2, e3, e4, e5]
    have g1 : (t - now) / 60 / 1440 = (t - now) / 86400 := by omega
    have g2 : (t - now) / 60 % 1440 / 60 = (t - now) % 86400 / 3600 := by
      omega
    have g3 : (t - now) / 60 % 60 = (t - now) % 3600 / 60 := by omega
    rw [g1, g2, g3]
    split_ifs <;> first
    | rfl
    | omega
    | (rw [show (t - now) % 86400 / 3600 = (t - now) / 3600 from by omega])
    | (rw [show (t - now) % 3600 / 60 = (t - now) / 60 from by omega])

/-- C6: `format_reset_duration` renders `"now"` for a parsed timestamp
under 60 seconds in the future, `"1h 30m"` at exactly 90 minutes,
`"2d 2h"` at exactly 50 hours, and in general the largest two applicable
units — days/hours at one day or more, hours/minutes at one hour or more,
else minutes — while absent or unparsable input renders `"?"`. -/
theorem claim_C6 (parse : String → Option Int) (now : Int) :
    format_reset_duration parse now none = "?" ∧
    (∀ s, parse s = none → format_reset_duration parse now (some s) = "?") ∧
    (∀ s t, parse s = some t →
      ((0 ≤ t - now → t - now < 60 →
          format_reset_duration parse now (some s) = "now") ∧
       (t - now = 5400 →
          format_reset_duration parse now (some s) = "1h 30m") ∧
       (t - now = 180000 →
          format_reset_duration parse now (some s) = "2d 2h") ∧
       (86400 ≤ t - now →
          format_reset_duration parse now (some s) =
            toString ((t - now) / 86400) ++ "d " ++
              toString ((t - now) % 86400 / 3600) ++ "h") ∧
       (3600 ≤ t - now → t - now < 86400 →
          format_reset_duration parse now (some s) =
            toString ((t - now) / 3600) ++ "h " ++
              toString ((t - now) % 3600 / 60) ++ "m") ∧
       (60 ≤ t - now → t - now < 3600 →
          format_reset_duration parse now (some s) =
            toString ((t - now) / 60) ++ "m"))) := by
  refine ⟨rfl, fun s hs => by simp [format_reset_duration, hs], ?_⟩
  intro s t ht
  rw [format_reset_duration_eq parse now s t ht]
  refine ⟨fun h0 h60 => by rw [if_pos h60], ?_, ?_, ?_, ?_, ?_⟩
  · intro h
    rw [h]
    decide
  · intro h
    rw [h]
    decide
  · intro h
    rw [if_neg (by omega), if_pos h]
  · intro h1 h2
    rw [if_neg (by omega), if_neg (by omega), if_pos h1]
  · intro h1 h2
    rw [if_neg (by omega), if_neg (by omega), if_neg (by omega)]

/-- C6 witness: concrete instances of the hypotheses of `claim_C6`. -/
theorem claim_C6_witness :
    format_reset_duration (fun _ => some 30) 0 (some "x") = "now" ∧
    format_reset_duration (fun _ => some 5400) 0 (some "x") = "1h 30m" ∧
    format_reset_duration (fun _ => some 180000) 0 (some "x") = "2d 2h" :=
  ⟨((claim_C6 (fun _ => some 30) 0).2.2 "x" 30 rfl).1 (by norm_num)
      (by norm_num),
   ((claim_C6 (fun _ => some 5400) 0).2.2 "x" 5400 rfl).2.1 (by norm_num),
   ((claim_C6 (fun _ => some 180000) 0).2.2 "x" 180000 rfl).2.2.1
      (by norm_num)⟩

/-- C10: a parsed timestamp at or before the current instant (remaining
duration zero or negative) renders `"now"`, because the under-60-seconds
branch covers all negative remaining durations. -/
theorem claim_C10 (parse : String → Option Int) (now : Int) (s : String)
    (t : Int) (ht : parse s = some t) (hpast : t ≤ now) :
    format_reset_duration parse now (some s) = "now" := by
  rw [format_reset_duration_eq parse now s t ht, if_pos (by omega)]

/-- C10 witness: a concrete instance of the hypotheses of `claim_C10`. -/
theorem claim_C10_witness :
    format_reset_duration (fun _ => some 0) 500 (some "x") = "now" :=
  claim_C10 (fun _ => some 0) 500 "x" 0 rfl (by norm_num)

/-- C7: `format_reset_time` renders the local calendar fields as
`month-day-hour` without leading zeros, adding one hour first when the
local minute exceeds 45 (so a reset at local minute 50 displays the next
hour's label); absent or unparsable input renders `"?"`. -/
theorem claim_C7 (to_local : String → Option LocalDateTime) :
    format_reset_time to_local none = "?" ∧
    (∀ s, to_local s = none → format_reset_time to_local (some s) = "?") ∧
    (∀ s dt, to_local s = some dt →
      ((45 < dt.minute → format_reset_time to_local (some s) =
          toString (add_one_hour dt).month ++ "-" ++
            toString (add_one_hour dt).day ++ "-" ++
            toString (add_one_hour dt).hour) ∧
       (dt.minute ≤ 45 → format_reset_time to_local (some s) =
          toString dt.month ++ "-" ++ toString dt.day ++ "-" ++
            toString dt.hour) ∧
       (dt.minute = 50 → dt.hour < 23 →
          format_reset_time to_local (some s) =
            toString dt.month ++ "-" ++ toString dt.day ++ "-" ++
              toString (dt.hour + 1)))) := by
  refine ⟨rfl, fun s hs => by simp [format_reset_time, hs], ?_⟩
  intro s dt hdt
  simp only [format_reset_time, hdt]
  refine ⟨fun h45 => ?_, fun h45 => ?_, fun h50 h23 => ?_⟩
  · rw [if_pos h45]
  · rw [if_neg (not_lt.mpr h45)]
  · have hadd : add_one_hour dt = { dt with hour := dt.hour + 1 } := by
      unfold add_one_hour
      rw [if_pos (by omega)]
    rw [if_pos (show dt.minute > 45 by omega), hadd]

/-- C7 witness: a concrete instance of the hypotheses of `claim_C7`, with
local minute 50 displaying the next hour. -/
theorem claim_C7_witness :
    format_reset_time (fun _ => some ⟨2025, 3, 15, 10, 50⟩) (some "x") =
      toString (3 : Nat) ++ "-" ++ toString (15 : Nat) ++ "-" ++
        toString (10 + 1 : Nat) :=
  ((claim_C7 (fun _ => some ⟨2025, 3, 15, 10, 50⟩)).2.2 "x"
    ⟨2025, 3, 15, 10, 50⟩ rfl).2.2 rfl (by norm_num)

/-- C8: reset-period parsing is ASCII-case-insensitive, `"monthly"` fails
to parse, an unparsable configured period resolves to the default
`Session` while the literal invalid text is surfaced under the distinct
`invalid_reset_period` metadata key, and the same contract holds for
`ResetFormat` with default `Time`. -/
theorem claim_C8 :
    ResetPeriod.try_from "SESSION" = some ResetPeriod.Session ∧
    ResetPeriod.try_from "Weekly" = some ResetPeriod.Weekly ∧
    ResetPeriod.try_from "monthly" = none ∧
    ResetFormat.try_from "TIME" = some ResetFormat.Time ∧
    ResetFormat.try_from "Duration" = some ResetFormat.Duration ∧
    ResetFormat.try_from "monthly" = none ∧
    ("invalid_reset_period" ≠ "reset_period" ∧
      "invalid_reset_format" ≠ "reset_format") ∧
    (∀ (env : CollectEnv) (fh sd : ℚ) (a b : Option String) (s : String),
      env.reset_period_raw = some s →
      ResetPeriod.try_from s = none →
      map_get (collect_render env fh sd a b).metadata "reset_period" =
        some "session" ∧
      map_get (collect_render env fh sd a b).metadata
        "invalid_reset_period" = some s) ∧
    (∀ (env : CollectEnv) (fh sd : ℚ) (a b : Option String) (s : String),
      env.reset_format_raw = some s →
      ResetFormat.try_from s = none →
      map_get (collect_render env fh sd a b).metadata "reset_format" =
        some "time" ∧
      map_get (collect_render env fh sd a b).metadata
        "invalid_reset_format" = some s) := by
  refine ⟨by decide, by decide, by decide, by decide, by decide, by decide,
    ⟨by decide, by decide⟩, ?_, ?_⟩
  · intro env fh sd a b s hraw htf
    rcases hfr : env.reset_format_raw with _ | v
    · constructor <;>
        simp [collect_render, hraw, htf, hfr, map_insert, map_get,
          ResetPeriod.as_str]
    · by_cases hv : (ResetFormat.try_from v).isNone
      · constructor <;>
          simp [collect_render, hraw, htf, hfr, hv, map_insert, map_get,
            ResetPeriod.as_str]
      · constructor <;>
          simp [collect_render, hraw, htf, hfr, hv, map_insert, map_get,
            ResetPeriod.as_str]
  · intro env fh sd a b s hraw htf
    rcases hpr : env.reset_period_raw with _ | v
    · constructor <;>
        simp [collect_render, hraw, htf, hpr, map_insert, map_get,
          ResetFormat.as_str]
    · by_cases hv : (ResetPeriod.try_from v).isNone
      · constructor <;>
          simp [collect_render, hraw, htf, hpr, hv, map_insert, map_get,
            ResetFormat.as_str]
      · constructor <;>
          simp [collect_render, hraw, htf, hpr, hv, map_insert, map_get,
            ResetFormat.as_str]

/-- An environment whose configured reset period and format are both the
unparsable text `"monthly"`. -/
def invalid_env : CollectEnv :=
  { test_env with
    reset_period_raw := some "monthly"
    reset_format_raw := some "monthly" }

/-- C8 witness: concrete instances of the hypotheses of `claim_C8`. -/
theorem claim_C8_witness :
    map_get (collect_render invalid_env 42 10 none none).metadata
      "reset_period" = some "session" ∧
    map_get (collect_render invalid_env 42 10 none none).metadata
      "invalid_reset_period" = some "monthly" ∧
    map_get (collect_render invalid_env 42 10 none none).metadata
      "reset_format" = some "time" ∧
    map_get (collect_render invalid_env 42 10 none none).metadata
      "invalid_reset_format" = some "monthly" :=
  ⟨(claim_C8.2.2.2.2.2.2.2.1 invalid_env 42 10 none none "monthly" rfl
      (by decide)).1,
   (claim_C8.2.2.2.2.2.2.2.1 invalid_env 42 10 none none "monthly" rfl
      (by decide)).2,
   (claim_C8.2.2.2.2.2.2.2.2 invalid_env 42 10 none none "monthly" rfl
      (by decide)).1,
   (claim_C8.2.2.2.2.2.2.2.2 invalid_env 42 10 none none "monthly" rfl
      (by decide)).2⟩

/-- C1: with a token and loaded config, `collect` chooses its data source
by the ordered fallback: a valid cache record is used verbatim with no
fetch; otherwise a fetch is attempted, a successful fetch is rendered and
persisted, a failed fetch falls back to the (stale) loaded cache record,
and with no cache record either, `collect` produces no output. -/
theorem claim_C1 (env : CollectEnv) (tk : String)
    (htok : env.token = some tk) (hcfg : env.config_ok = true) :
    (∀ cache, load_cache env.cache_file = some cache →
      is_cache_valid env.parse_rfc3339 env.now cache
        (env.cache_duration_opt.getD 300) = true →
      collect env =
        ⟨some (collect_render env cache.five_hour_utilization
            cache.seven_day_utilization cache.five_hour_resets_at
            cache.seven_day_resets_at),
          false, none⟩) ∧
    (((load_cache env.cache_file).map (fun cache =>
        is_cache_valid env.parse_rfc3339 env.now cache
          (env.cache_duration_opt.getD 300))).getD false = false →
      (∀ response,
        env.fetch_api_usage (env.api_base_url_opt.getD default_api_base_url)
          tk (env.timeout_opt.getD 2) = some response →
        collect env =
          ⟨some (collect_render env response.five_hour.utilization
              response.seven_day.utilization response.five_hour.resets_at
              response.seven_day.resets_at),
            true,
            some ⟨response.five_hour.utilization,
              response.seven_day.utilization, response.five_hour.resets_at,
              response.seven_day.resets_at, none, env.now_str⟩⟩) ∧
      (env.fetch_api_usage (env.api_base_url_opt.getD default_api_base_url)
          tk (env.timeout_opt.getD 2) = none →
        (∀ cache, load_cache env.cache_file = some cache →
          collect env =
            ⟨some (collect_render env cache.five_hour_utilization
                cache.seven_day_utilization cache.five_hour_resets_at
                cache.seven_day_resets_at),
              true, none⟩) ∧
        (load_cache env.cache_file = none →
          collect env = ⟨none, true, none⟩))) := by
  refine ⟨?_, ?_⟩
  · intro cache hc hvalid
    simp [collect, htok, hcfg, hc, hvalid]
  · intro hstale
    refine ⟨?_, ?_⟩
    · intro response hfetch
      simp [collect, htok, hcfg, hstale, hfetch]
    · intro hfail
      refine ⟨?_, ?_⟩
      · intro cache hc
        have hnv : is_cache_valid env.parse_rfc3339 env.now cache
            (env.cache_duration_opt.getD 300) = false := by
          rw [hc] at hstale
          simpa using hstale
        simp [collect, htok, hcfg, hc, hnv, hfail]
      · intro hc
        simp [collect, htok, hcfg, hstale, hfail, hc]

/-- A cache record used to instantiate the valid-cache branch. -/
def witness_cache : ApiUsageCache :=
  ⟨42, 10, none, none, none, "cached"⟩

/-- An environment holding `witness_cache` as a fresh cache file. -/
def witness_env : CollectEnv :=
  { test_env with
    cache_file := some witness_cache
    parse_rfc3339 := fun _ => some 0 }

/-- C1 witness: concrete instances of the hypotheses of `claim_C1` — a
valid cache short-circuits the fetch, and no cache plus a failed fetch
yields no output. -/
theorem claim_C1_witness :
    collect witness_env =
      ⟨some (collect_render witness_env 42 10 none none), false, none⟩ ∧
    collect test_env = ⟨none, true, none⟩ :=
  ⟨(claim_C1 witness_env "token" rfl rfl).1 witness_cache rfl (by decide),
   (((claim_C1 test_env "token" rfl rfl).2 (by decide)).2 rfl).2 rfl⟩
